import Mathlib

/-
  Verification of the bulk IMPORT/EXPORT orchestration and statement engine
  of the go-exasol-client library, shallowly embedded in Lean 4.

  Sources embedded:
    - bulk-api.go: StreamExecute / StreamQuery retry loops, retryableError,
      BulkExecute / BulkQuery buffer variants, the select race of
      streamExecuteNoRetry / streamQuery (transfer vs. command vs. timeout).
    - exasol.go (src/unnamed/part_000): Execute with bindings (prepared
      statement cache, "Statement handle not found" recovery) and FetchChan
      (result-set pagination, closeResultSet, panic on fetch error).

  Conventions: byte buffers and chunks are `List Nat`; errors are
  `Option String` (none = Go nil error); Go channels of chunks are lists in
  send order; the background goroutines become explicit loop functions whose
  emitted wire requests and rows are returned as data.
-/

namespace Exasol

/-! ### Error-signature matching

The Go code classifies retryable transfer errors with
`regexp.MustCompile("failed after 0 bytes.+Connection refused")` and
handle-eviction with `regexp.MustCompile("Statement handle not found")`.
We embed unanchored regex matching over the error string: `pat1 .+ pat2`
matches iff `pat1` occurs at some index `i`, `pat2` at some index `j`, with
at least one character strictly between the end of `pat1` and `j`, none of
the gap characters being a newline (Go `.` does not match newline). -/

/-- Test whether `pat` occurs in `cs` starting exactly at index `i`. -/
def matchesAt (cs pat : List Char) (i : Nat) : Bool :=
  (cs.drop i).take pat.length == pat

/-- Unanchored substring test, embedding `regexp.MatchString` for a literal
pattern (used for "Statement handle not found"). -/
def containsSub (s pat : String) : Bool :=
  (List.range (s.toList.length + 1)).any (fun i => matchesAt s.toList pat.toList i)

/-- All characters of `cs` in positions `[a, b)` are non-newline (the gap
matched by `.+` in a Go regexp). -/
def noNewlineGap (cs : List Char) (a b : Nat) : Bool :=
  ((cs.drop a).take (b - a)).all (fun c => c != '\n')

/-- Embedding of bulk-api.go `retryableError`: true iff the error is non-nil
and its message matches `failed after 0 bytes.+Connection refused`. -/
def retryableError (err : Option String) : Bool :=
  match err with
  | none => false
  | some s =>
    let cs := s.toList
    let a := ("failed after 0 bytes").toList
    let b := ("Connection refused").toList
    (List.range (cs.length + 1)).any (fun i =>
      matchesAt cs a i &&
      ((List.range (cs.length + 1)).any (fun j =>
        decide (i + a.length < j) && noNewlineGap cs (i + a.length) j &&
          matchesAt cs b j)))

/-! ### StreamExecute retry loop (bulk import)

`streamExecuteNoRetry` is abstracted as `attempt : Nat → Int × Option String`
giving, for each attempt index, the bytes written and the resulting error.
The loop body is `for range []int{1, 2}`; the returned pair is (final error,
number of attempts actually made). -/

/-- Embedding of the `for range []int{1, 2}` loop body of
`Conn.StreamExecute`: on a non-nil error that is retryable with zero bytes
written, continue; on any other non-nil error, return it; on success, break.
Falling off the end of the loop returns a nil error. -/
def streamExecuteAux (attempt : Nat → Int × Option String) :
    Nat → List Unit → Option String × Nat
  | idx, [] => (none, idx)
  | idx, _ :: rest =>
    let r := attempt idx
    match r.2 with
    | some e =>
      if retryableError (some e) && r.1 == 0 then
        streamExecuteAux attempt (idx + 1) rest
      else (some e, idx + 1)
    | none => (none, idx + 1)

/-- The full two-iteration retry loop of `Conn.StreamExecute`. -/
def streamExecuteLoopRun (attempt : Nat → Int × Option String) :
    Option String × Nat :=
  streamExecuteAux attempt 0 [(), ()]

/-- Observable outcome of a public bulk call: either the process was
terminated by `log.Fatal` (modelled from the spec: a fatal log call aborts
the process instead of returning), or the call returned with an error value. -/
inductive ApiOutcome where
  | fatal (msg : String)
  | ret (err : Option String)
deriving DecidableEq

/-- Channel of byte chunks as Go builds it: buffered contents plus whether
`close` was called. -/
structure ByteChan where
  chunks : List (List Nat)
  closed : Bool
deriving DecidableEq

/-- Embedding of `Conn.StreamExecute`: nil-channel check (`log.Fatal`), then
the retry loop; the per-attempt behaviour of `streamExecuteNoRetry` on the
given SQL and channel is the oracle `attempt`. -/
def StreamExecute (attempt : String → ByteChan → Nat → Int × Option String)
    (sql : String) (data : Option ByteChan) : ApiOutcome :=
  match data with
  | none => .fatal "You must pass in a []byte chan to StreamExecute"
  | some ch => .ret (streamExecuteLoopRun (attempt sql ch)).1

/-- Embedding of `Conn.BulkExecute`: nil-buffer check (`log.Fatal`), then
build a capacity-1 channel, send `data.Bytes()`, close it, and delegate to
`StreamExecute`. -/
def BulkExecute (attempt : String → ByteChan → Nat → Int × Option String)
    (sql : String) (data : Option (List Nat)) : ApiOutcome :=
  match data with
  | none => .fatal "You must pass in a bytes.Buffer pointer to BulkExecute"
  | some buf => StreamExecute attempt sql (some { chunks := [buf], closed := true })

/-! ### StreamQuery retry loop (bulk export)

`Rows.streamQuery` is abstracted as `attempt : Nat → List (List Nat) × Option String`
giving, per attempt index, the chunks the attempt pushed onto `r.Data` and
the error it returned. The Go loop is `for i := 0; i <= 2; i++` with
`r.Error = r.streamQuery(...); if retryableError(r.Error) { r.Error = nil; continue };
return`; chunks from earlier attempts stay on the channel across retries. -/

/-- Embedding of the retry loop inside `Conn.StreamQuery`'s background
goroutine; returns (all chunks pushed in order, final value of `r.Error`,
number of attempts made). The fuel is the remaining loop iterations
(`i <= 2` allows three). -/
def streamQueryAux (attempt : Nat → List (List Nat) × Option String) :
    Nat → Nat → List (List Nat) × Option String × Nat
  | idx, 0 => ([], none, idx)
  | idx, fuel + 1 =>
    let r := attempt idx
    if retryableError r.2 then
      let rest := streamQueryAux attempt (idx + 1) fuel
      (r.1 ++ rest.1, rest.2.1, rest.2.2)
    else (r.1, r.2, idx + 1)

/-- The full three-iteration retry loop of `Conn.StreamQuery`. -/
def streamQueryRun (attempt : Nat → List (List Nat) × Option String) :
    List (List Nat) × Option String × Nat :=
  streamQueryAux attempt 0 3

/-- Observable state of the `Rows` object once the background goroutine has
finished: the chunks that came over `r.Data` (drained in order) and the final
`r.Error`. -/
structure RowsModel where
  data : List (List Nat)
  error : Option String
deriving DecidableEq

/-- Embedding of `Conn.StreamQuery` as observed after the background task
completes: the retry loop's chunks and final error. -/
def StreamQuery (attempt : Nat → List (List Nat) × Option String) : RowsModel :=
  let r := streamQueryRun attempt
  { data := r.1, error := r.2.1 }

/-- Embedding of `Conn.BulkQuery`: nil-buffer check (`log.Fatal`), then drain
`rows.Data` into the buffer and wrap `rows.Error` if non-nil. Returns the
call outcome and the final buffer contents. -/
def BulkQuery (attempt : Nat → List (List Nat) × Option String)
    (data : Option (List Nat)) : ApiOutcome × List Nat :=
  match data with
  | none => (.fatal "You must pass in a bytes.Buffer pointer to BulkQuery", [])
  | some buf =>
    let rows := StreamQuery attempt
    let out := buf ++ rows.data.flatten
    match rows.error with
    | some e => (.ret (some ("Unable to BulkQuery: " ++ e)), out)
    | none => (.ret none, out)

/-! ### Theorems for claims C1, C5, C3 -/

/-- C1: in the bulk-import retry loop (StreamExecute, and BulkInsert /
BulkExecute through it), a first attempt failing with the
`failed after 0 bytes...Connection refused` signature and zero bytes written
is retried exactly once more (two attempts total); a signature failure with
nonzero bytes written is terminal with no retry; a non-signature error is
terminal on its first occurrence; a successful attempt ends the loop. -/
theorem c1_stream_execute_retry
    (attempt : Nat → Int × Option String) (bw0 : Int) (e0 : Option String)
    (h0 : attempt 0 = (bw0, e0)) :
    (e0 = none → streamExecuteLoopRun attempt = (none, 1)) ∧
    (∀ s, e0 = some s → (retryableError e0 = true → bw0 ≠ 0) →
      streamExecuteLoopRun attempt = (some s, 1)) ∧
    (retryableError e0 = true → bw0 = 0 →
      (streamExecuteLoopRun attempt).2 = 2 ∧
      ∀ bw1 e1, attempt 1 = (bw1, e1) →
        (e1 = none → streamExecuteLoopRun attempt = (none, 2)) ∧
        (∀ s1, e1 = some s1 → (retryableError e1 = true → bw1 ≠ 0) →
          streamExecuteLoopRun attempt = (some s1, 2))) := by
  refine ⟨?_, ?_, ?_⟩
  · intro h
    subst h
    simp [streamExecuteLoopRun, streamExecuteAux, h0]
  · intro s hs hterm
    subst hs
    cases hre : retryableError (some s) with
    | false => simp [streamExecuteLoopRun, streamExecuteAux, h0, hre]
    | true =>
      have hbw : bw0 ≠ 0 := hterm hre
      simp [streamExecuteLoopRun, streamExecuteAux, h0, hre, hbw]
  · intro hre hbw
    subst hbw
    have hfirst : streamExecuteLoopRun attempt = streamExecuteAux attempt 1 [()] := by
      rcases he0 : e0 with _ | s
      · rw [he0] at hre
        simp [retryableError] at hre
      · rw [he0] at h0 hre
        simp [streamExecuteLoopRun, streamExecuteAux, h0, hre]
    refine ⟨?_, ?_⟩
    · rw [hfirst]
      rcases ha1 : attempt 1 with ⟨bw1, e1⟩
      rcases e1 with _ | s1
      · simp [streamExecuteAux, ha1]
      · cases hre1 : retryableError (some s1) with
        | false => simp [streamExecuteAux, ha1, hre1]
        | true =>
          by_cases hb1 : bw1 = 0
          · subst hb1
            simp [streamExecuteAux, ha1, hre1]
          · simp [streamExecuteAux, ha1, hre1, hb1]
    · intro bw1 e1 h1
      refine ⟨?_, ?_⟩
      · intro he1
        subst he1
        rw [hfirst]
        simp [streamExecuteAux, h1]
      · intro s1 hs1 hterm1
        subst hs1
        rw [hfirst]
        cases hre1 : retryableError (some s1) with
        | false => simp [streamExecuteAux, h1, hre1]
        | true =>
          have hb1 : bw1 ≠ 0 := hterm1 hre1
          simp [streamExecuteAux, h1, hre1, hb1]

/-- Attempt oracle for the C1 witness: the first attempt fails with the
retryable signature at zero bytes, the second succeeds. -/
def c1AttemptW : Nat → Int × Option String :=
  fun n => if n = 0 then (0, some "failed after 0 bytes: Connection refused") else (7, none)

/-- Witness for C1 at a concrete attempt sequence: the first failure is
retryable at zero bytes and the loop ends successfully after two attempts. -/
theorem c1_stream_execute_retry_witness :
    retryableError (some "failed after 0 bytes: Connection refused") = true ∧
    streamExecuteLoopRun c1AttemptW = (none, 2) := by
  refine ⟨by decide, ?_⟩
  have h := c1_stream_execute_retry c1AttemptW 0
    (some "failed after 0 bytes: Connection refused") rfl
  exact ((h.2.2 (by decide) rfl).2 7 none rfl).1 rfl

/-- C5: the export stream's outer retry loop makes at most three attempts
(at most two retries); it retries only on the retryable connection-refused
signature; the first non-retryable outcome (error or success) ends the loop
with that outcome recorded as the Rows result object's error. -/
theorem c5_stream_query_retry (attempt : Nat → List (List Nat) × Option String) :
    (streamQueryRun attempt).2.2 ≤ 3 ∧
    (retryableError (attempt 0).2 = false →
      (StreamQuery attempt).error = (attempt 0).2 ∧ (streamQueryRun attempt).2.2 = 1) ∧
    (retryableError (attempt 0).2 = true → retryableError (attempt 1).2 = false →
      (StreamQuery attempt).error = (attempt 1).2 ∧ (streamQueryRun attempt).2.2 = 2) ∧
    (retryableError (attempt 0).2 = true → retryableError (attempt 1).2 = true →
      retryableError (attempt 2).2 = false →
      (StreamQuery attempt).error = (attempt 2).2 ∧ (streamQueryRun attempt).2.2 = 3) := by
  refine ⟨?_, ?_, ?_, ?_⟩
  · cases h0 : retryableError (attempt 0).2 with
    | false => simp [streamQueryRun, streamQueryAux, h0]
    | true =>
      cases h1 : retryableError (attempt 1).2 with
      | false => simp [streamQueryRun, streamQueryAux, h0, h1]
      | true =>
        cases h2 : retryableError (attempt 2).2 with
        | false => simp [streamQueryRun, streamQueryAux, h0, h1, h2]
        | true => simp [streamQueryRun, streamQueryAux, h0, h1, h2]
  · intro h0
    simp [StreamQuery, streamQueryRun, streamQueryAux, h0]
  · intro h0 h1
    simp [StreamQuery, streamQueryRun, streamQueryAux, h0, h1]
  · intro h0 h1 h2
    simp [StreamQuery, streamQueryRun, streamQueryAux, h0, h1, h2]

/-- Attempt oracle for the C5 witness: the first attempt fails with the
retryable signature, the second succeeds with one chunk. -/
def c5AttemptW : Nat → List (List Nat) × Option String :=
  fun n => if n = 0 then ([], some "failed after 0 bytes: Connection refused")
           else ([[1, 2]], none)

/-- Witness for C5 at a concrete attempt sequence: one retry happens, the
second attempt's nil error is recorded, and two attempts were made. -/
theorem c5_stream_query_retry_witness :
    retryableError (c5AttemptW 0).2 = true ∧
    (StreamQuery c5AttemptW).error = none ∧ (streamQueryRun c5AttemptW).2.2 = 2 := by
  refine ⟨by decide, ?_⟩
  have h := (c5_stream_query_retry c5AttemptW).2.2.1 (by decide) (by decide)
  exact h

/-- Attempt oracle for the C3 counterexample: every attempt fails with the
retryable connection-refused signature. -/
def c3Attempt : Nat → List (List Nat) × Option String :=
  fun _ => ([], some "failed after 0 bytes: Connection refused")

/-- C3 counterexample: the final (third) attempt of the export retry loop
fails with a non-nil error, yet the Rows result object carries no error after
the background task finishes — the loop set `r.Error = nil` before its last
`continue`, silently dropping the failure. This refutes the claim that the
Rows result carries the final attempt's non-nil error whenever it fails. -/
theorem c3_final_error_counterexample :
    (c3Attempt 2).2 = some "failed after 0 bytes: Connection refused" ∧
    retryableError ((c3Attempt 2).2) = true ∧
    (StreamQuery c3Attempt).error = none := by
  refine ⟨rfl, by decide, by decide⟩

/-- C3 (amended): if the final attempt of the export retry loop fails with a
non-retryable error, the Rows result object carries that error after the
background task finishes; if the final attempt fails with the retryable
connection-refused signature, the error is cleared and the Rows result
carries no error — that final retryable failure is silently dropped, an
exception alongside the suppressed cancellation case. -/
theorem c3_final_error_recorded (attempt : Nat → List (List Nat) × Option String)
    (h0 : retryableError (attempt 0).2 = true)
    (h1 : retryableError (attempt 1).2 = true) :
    (retryableError (attempt 2).2 = false →
      (StreamQuery attempt).error = (attempt 2).2) ∧
    (retryableError (attempt 2).2 = true →
      (StreamQuery attempt).error = none) := by
  refine ⟨?_, ?_⟩
  · intro h2
    simp [StreamQuery, streamQueryRun, streamQueryAux, h0, h1, h2]
  · intro h2
    simp [StreamQuery, streamQueryRun, streamQueryAux, h0, h1, h2]

/-- Attempt oracle for the C3 witness: two retryable failures, then a
terminal non-retryable error on the final attempt. -/
def c3AttemptW : Nat → List (List Nat) × Option String :=
  fun n => if n ≤ 1 then ([], some "failed after 0 bytes: Connection refused")
           else ([], some "disk full")

/-- Witness for the amended C3 at a concrete attempt sequence: the final
attempt's non-retryable error is carried on the Rows result object. -/
theorem c3_final_error_recorded_witness :
    retryableError (c3AttemptW 0).2 = true ∧
    (StreamQuery c3AttemptW).error = some "disk full" := by
  refine ⟨by decide, ?_⟩
  exact (c3_final_error_recorded c3AttemptW (by decide) (by decide)).1 (by decide)

/-! ### Buffer variants as single-chunk stream variants (claim C6) -/

/-- True iff a bulk call outcome is a returned non-nil error. -/
def outcomeIsError : ApiOutcome → Bool
  | .ret (some _) => true
  | _ => false

/-- Specification-side definition for C6, following the spec's words: the
buffer import variant is a single-chunk instance of the stream variant — the
stream called on a closed channel holding the one chunk `buf.Bytes()`. -/
def bulkExecuteViaStream (attempt : String → ByteChan → Nat → Int × Option String)
    (sql : String) (buf : List Nat) : ApiOutcome :=
  StreamExecute attempt sql (some { chunks := [buf], closed := true })

/-- Specification-side definition for C6, following the spec's words: the
buffer export variant drains the stream variant's chunk channel into the
buffer in order and reports an error exactly when the Rows result object
carries one. Returns (error present, final buffer contents). -/
def bulkQueryViaStream (attempt : Nat → List (List Nat) × Option String)
    (buf : List Nat) : Bool × List Nat :=
  let rows := StreamQuery attempt
  (rows.error != none, buf ++ rows.data.flatten)

/-- C6: for every SQL string and non-nil buffer, BulkExecute equals
StreamExecute on a closed single-chunk channel holding the buffer's bytes;
and BulkQuery equals StreamQuery with the chunk channel drained into the
buffer in order, erring exactly when the Rows result object carries an
error. -/
theorem c6_bulk_is_single_chunk_stream
    (attempt : String → ByteChan → Nat → Int × Option String) (sql : String)
    (buf : List Nat) (qattempt : Nat → List (List Nat) × Option String)
    (qbuf : List Nat) :
    BulkExecute attempt sql (some buf) = bulkExecuteViaStream attempt sql buf ∧
    (BulkQuery qattempt (some qbuf)).2 = (bulkQueryViaStream qattempt qbuf).2 ∧
    outcomeIsError (BulkQuery qattempt (some qbuf)).1 =
      (bulkQueryViaStream qattempt qbuf).1 := by
  refine ⟨rfl, ?_, ?_⟩
  · cases h : (StreamQuery qattempt).error <;>
      simp [BulkQuery, bulkQueryViaStream, h]
  · cases h : (StreamQuery qattempt).error <;>
      simp [BulkQuery, bulkQueryViaStream, outcomeIsError, h]

/-- C9: passing a nil buffer to BulkExecute or BulkQuery, or a nil channel
to StreamExecute, ends in the fatal-log outcome (modelled from the spec:
`log.Fatal` terminates the process) with the corresponding message, instead
of returning an error value to the caller. -/
theorem c9_nil_argument_is_fatal
    (attempt : String → ByteChan → Nat → Int × Option String)
    (qattempt : Nat → List (List Nat) × Option String) (sql : String) :
    BulkExecute attempt sql none =
      .fatal "You must pass in a bytes.Buffer pointer to BulkExecute" ∧
    (BulkQuery qattempt none).1 =
      .fatal "You must pass in a bytes.Buffer pointer to BulkQuery" ∧
    StreamExecute attempt sql none =
      .fatal "You must pass in a []byte chan to StreamExecute" :=
  ⟨rfl, rfl, rfl⟩

/-! ### The transfer/command/timeout race (claim C4)

Both `streamExecuteNoRetry` and `Rows.streamQuery` run the byte transfer and
the SQL response wait concurrently and select over `dataErr`, `respErr` and
`time.After(time.Duration(Timeout) * time.Second)`. We embed the race with
explicit completion times in nanoseconds: the timer channel of
`time.After(d)` becomes ready `d` nanoseconds after the select starts, so
with `Timeout = 0` it is ready immediately. The timer case is taken when the
timer is strictly first; whichever of the two task cases is first is taken
otherwise (a tie between them is resolved in favour of the data task; Go
resolves ties randomly), and on its nil error the select waits for the other
task's error. -/

/-- Embedding of the three-way `select` shared by `streamExecuteNoRetry` and
`Rows.streamQuery`, with task completion times in nanoseconds. -/
def raceSelect (tData tResp : Nat) (eData eResp : Option String)
    (timeoutSecs : Nat) (timeoutMsg : String) : Option String :=
  let tTimer := timeoutSecs * 1000000000
  if tTimer < tData ∧ tTimer < tResp then some timeoutMsg
  else if tData ≤ tResp then
    match eData with
    | some e => some e
    | none => eResp
  else
    match eResp with
    | some e => some e
    | none => eData

/-- Embedding of `Conn.streamExecuteNoRetry` after `initProxy` succeeded:
the select race with the import timeout message, any non-nil result wrapped
as `Unable to bulk import data: <sql>\n<err>`. -/
def streamExecuteNoRetry (sql : String) (bytesWritten : Int) (tData tResp : Nat)
    (eData eResp : Option String) (timeoutSecs : Nat) : Int × Option String :=
  match raceSelect tData tResp eData eResp timeoutSecs
      "Timed out doing StreamExecute" with
  | some e => (bytesWritten, some ("Unable to bulk import data: " ++ sql ++ "\n" ++ e))
  | none => (bytesWritten, none)

/-- Embedding of the select race of `Rows.streamQuery` after `initProxy`
succeeded (the export direction; the error is returned unwrapped). -/
def streamQueryRace (tData tResp : Nat) (eData eResp : Option String)
    (timeoutSecs : Nat) : Option String :=
  raceSelect tData tResp eData eResp timeoutSecs "Timed out doing BulkQuery"

/-- C4: evaluation at the failing input. With the configured timeout 0 the
timer of `time.After(0)` is ready immediately, so a transfer and command
still in flight (here: completing after 5ns and 7ns) produce the dedicated
timeout error — timeout 0 does not disable the race's timer, contradicting
the claim. The last two conjuncts check the part of the claim that holds: a
positive timeout produces the dedicated timeout error exactly when
exceeded. -/
theorem c4_timeout_zero_fires_immediately :
    streamQueryRace 5 7 none none 0 = some "Timed out doing BulkQuery" ∧
    (streamExecuteNoRetry "IMPORT" 0 5 7 none none 0).2 =
      some ("Unable to bulk import data: IMPORT\nTimed out doing StreamExecute") ∧
    streamQueryRace 2500000000 2500000000 none none 1 =
      some "Timed out doing BulkQuery" ∧
    streamQueryRace 500000000 700000000 none none 1 = none := by
  refine ⟨by decide, by decide, by decide, by decide⟩

/-! ### Statement engine: Execute with bindings (claim C2)

The binds path of `Conn.Execute` (exasol.go): obtain the cached prepared
statement, send `executePreparedStatement`, and on a server error matching
`Statement handle not found` evict the SQL from the cache, re-prepare, and
send once more with the new handle. The server is the oracle
`sendExec : Nat → Except String Nat` mapping a statement handle to the
response (abstracted to a token) or error of `executePreparedStatement`;
Go's `c.send` returns the pair (nil result, error) on failure and
(response, nil) on success, and `Execute` returns such a pair, so the
embedding keeps result and error as separate fields. `fresh` lists the
handles the server assigns to successive prepares. `getPrepStmt` and
`closePrepStmt` are not under src/ and are modelled from the spec. The
overlay of explicit column types and the row-major transpose of the
bindings do not affect the recovery path and are not modelled here.

Shadowing in the recovery branch: `ps, err := c.getPrepStmt(schema, sql)`
is a short declaration inside the `if` block, so it declares new block-local
`ps` and `err` shadowing the function-level ones. The retry assignment
`res, err = c.send(execReq)` therefore writes the outer `res` but the inner
`err`; the function-level `err` still holds the original handle-not-found
error, and the final `return res, err` returns it — even when the retried
execution succeeded (and likewise the original error, not the retry's, when
the retry fails). The block-local `ps` also means the trailing
`closePrepStmt(ps.sth)` for disabled caching closes the original handle. -/

/-- Embedding of the `regexp.MustCompile("Statement handle not found")`
check of `Conn.Execute`. -/
def handleNotFound (e : String) : Bool :=
  containsSub e "Statement handle not found"

/-- Lookup of `c.prepStmtCache[sql]`, the cache as an association list. -/
def cacheLookup (cache : List (String × Nat)) (sql : String) : Option Nat :=
  match cache.find? (fun p => p.1 == sql) with
  | some p => some p.2
  | none => none

/-- Modelled from the spec: `getPrepStmt` is not under src/. Per §4.3,
"obtain (or create) the cached prepared statement for sql": return the
cached handle when present; otherwise prepare server-side — the next
server-assigned handle from `fresh` — and cache it (failing when the server
refuses the prepare). -/
def getPrepStmt (cache : List (String × Nat)) (fresh : List Nat) (sql : String) :
    Except String (Nat × List (String × Nat) × List Nat) :=
  match cacheLookup cache sql with
  | some h => .ok (h, cache, fresh)
  | none =>
    match fresh with
    | [] => .error "prepare failed"
    | h :: rest => .ok (h, (sql, h) :: cache, rest)

/-- Observable outcome of the binds path of `Conn.Execute`: the returned
`res` (nil when the send it came from errored) and `err` values, the final
prepared-statement cache, the handles sent via `executePreparedStatement`
in order, and the handles closed via `closePrepStmt` (modelled from the
spec: destroyed immediately after use when caching is disabled). -/
structure ExecOut where
  res : Option Nat
  err : Option String
  cache : List (String × Nat)
  sent : List Nat
  closed : List Nat

/-- Embedding of the binds path of `Conn.Execute`, including the `err`
shadowing described above: in the recovery branch, the retry's send updates
`res`, but the returned `err` stays the original handle-not-found error `e`;
the early `return nil, err` on a failed re-prepare returns the inner `err`
and skips the close; the trailing close for disabled caching uses the outer
`ps`, hence the original handle. -/
def ExecuteBinds (sendExec : Nat → Except String Nat) (cachePrepStmts : Bool)
    (cache : List (String × Nat)) (fresh : List Nat) (sql : String) : ExecOut :=
  match getPrepStmt cache fresh sql with
  | .error e => { res := none, err := some e, cache := cache, sent := [], closed := [] }
  | .ok (h, cache1, fresh1) =>
    match sendExec h with
    | .ok r =>
      { res := some r, err := none, cache := cache1, sent := [h],
        closed := if cachePrepStmts then [] else [h] }
    | .error e =>
      if handleNotFound e then
        let cache2 := cache1.filter (fun p => !(p.1 == sql))
        match getPrepStmt cache2 fresh1 sql with
        | .error e2 =>
          { res := none, err := some e2, cache := cache2, sent := [h], closed := [] }
        | .ok (h2, cache3, _) =>
          match sendExec h2 with
          | .ok r2 =>
            { res := some r2, err := some e, cache := cache3, sent := [h, h2],
              closed := if cachePrepStmts then [] else [h] }
          | .error _ =>
            { res := none, err := some e, cache := cache3, sent := [h, h2],
              closed := if cachePrepStmts then [] else [h] }
      else
        { res := none, err := some e, cache := cache1, sent := [h],
          closed := if cachePrepStmts then [] else [h] }

/-- Evicting a SQL text from the cache leaves nothing for its lookup to
find. -/
lemma cacheLookup_filter_self (cache : List (String × Nat)) (sql : String) :
    cacheLookup (cache.filter (fun p => !(p.1 == sql))) sql = none := by
  have h : (cache.filter (fun p => !(p.1 == sql))).find? (fun p => p.1 == sql)
      = none := by
    rw [List.find?_eq_none]
    intro x hx
    have hq := (List.mem_filter.mp hx).2
    simp only [Bool.not_eq_true'] at hq
    simp [hq]
  simp [cacheLookup, h]

/-- Server oracle for the C2 failing input: the stale handle 7 draws the
handle-not-found error, any other handle succeeds with response token 42. -/
def c2SendW : Nat → Except String Nat :=
  fun h => if h = 7 then .error "Statement handle not found" else .ok 42

/-- C2: evaluation at the failing input. With the cache mapping the SQL to
stale handle 7, the server rejecting 7 with `Statement handle not found`,
and the re-prepare yielding handle 9 whose retried execution succeeds with
response 42: the eviction, re-preparation and single retry with the new
handle all happen as claimed (sends are exactly [7, 9] and the cache ends at
handle 9), and the retried response is returned — but the returned error is
the original non-nil `Statement handle not found`, not nil: the `err`
shadowed by `ps, err := c.getPrepStmt` keeps the outer `err` holding the
original error through `return res, err`, so the recovery is not invisible
and the caller does not observe success. -/
theorem c2_shadowed_error_returned :
    (ExecuteBinds c2SendW true [("Q", 7)] [9] "Q").sent = [7, 9] ∧
    cacheLookup (ExecuteBinds c2SendW true [("Q", 7)] [9] "Q").cache "Q" = some 9 ∧
    (ExecuteBinds c2SendW true [("Q", 7)] [9] "Q").res = some 42 ∧
    (ExecuteBinds c2SendW true [("Q", 7)] [9] "Q").err =
      some "Statement handle not found" := by
  refine ⟨by decide, by decide, by decide, by decide⟩

/-! ### Result streaming: FetchChan pagination (claims C7, C8, C10)

The background goroutine of `Conn.FetchChan` (exasol.go): given the result
set's row count and optional handle, either do nothing (zero rows), or
paginate — send `fetch` requests with a 64 MiB byte budget at the current
row offset, advance by the chunk's reported row count, transpose each
chunk's column-major data onto the row channel, and after the loop send one
`closeResultSet` — or stream the inline data. The server is the oracle
`serve : Nat → Except String (Nat × List (List Nat))` mapping a start
position to the chunk's reported row count and column-major data, or to the
error of the `fetch` call (on which the goroutine panics). The Go loop has
no bound of its own; the embedding carries fuel and a distinguished
`fuelOut` result that the theorems rule out. -/

/-- Wire requests the goroutine sends over the socket. -/
inductive WireReq where
  | fetch (rsh startPos numBytes : Nat)
  | closeResultSet (rsh : Nat)
deriving DecidableEq

/-- Outcome of the background goroutine: the channel closed normally after
the listed requests and rows, or the goroutine panicked with an error, or
the embedding's fuel ran out. -/
inductive FetchResult where
  | finished (reqs : List WireReq) (rows : List (List Nat))
  | panicked (reqs : List WireReq) (rows : List (List Nat)) (e : String)
  | fuelOut
deriving DecidableEq

/-- Modelled from the spec: `transposeToChan` is not under src/. Per §4.4
and §3, wire data is column-major and rows are delivered row-major, so the
chunk's columns are transposed into its rows. -/
def transposeMat (cols : List (List Nat)) : List (List Nat) :=
  match cols.head? with
  | none => []
  | some c => (List.range c.length).map (fun i => cols.filterMap (fun col => col[i]?))

/-- Embedding of the pagination loop
`for i := 0; i < numRows; { fetch(rsh, i, 64MiB); i += chunk.numRows; ... }`
followed by the single `closeResultSet`. Arguments: current offset, fuel. -/
def fetchLoop (serve : Nat → Except String (Nat × List (List Nat)))
    (R rsh : Nat) : Nat → Nat → FetchResult
  | _, 0 => .fuelOut
  | i, fuel + 1 =>
    if i < R then
      match serve i with
      | .error e => .panicked [.fetch rsh i 67108864] [] e
      | .ok (n, cols) =>
        match fetchLoop serve R rsh (i + n) fuel with
        | .finished reqs rows =>
          .finished (.fetch rsh i 67108864 :: reqs) (transposeMat cols ++ rows)
        | .panicked reqs rows e =>
          .panicked (.fetch rsh i 67108864 :: reqs) (transposeMat cols ++ rows) e
        | .fuelOut => .fuelOut
    else .finished [.closeResultSet rsh] []

/-- Embedding of the whole goroutine body of `Conn.FetchChan`: zero rows do
nothing; a result-set handle triggers pagination; otherwise the inline data
is transposed onto the channel directly. -/
def fetchChanGo (R : Nat) (rshOpt : Option Nat) (inlineCols : List (List Nat))
    (serve : Nat → Except String (Nat × List (List Nat))) : FetchResult :=
  if R = 0 then .finished [] []
  else
    match rshOpt with
    | some rsh => fetchLoop serve R rsh 0 (R + 1)
    | none => .finished [] (transposeMat inlineCols)

/-- The fetch requests a pagination with per-chunk row counts `ns` sends,
starting at offset `i`: each request carries the 64 MiB budget and the
offset reached by summing the earlier chunks' row counts. -/
def buildFetchReqs (rsh : Nat) : Nat → List Nat → List WireReq
  | _, [] => []
  | i, n :: ns => .fetch rsh i 67108864 :: buildFetchReqs rsh (i + n) ns

lemma buildFetchReqs_shape (rsh : Nat) :
    ∀ ns i, ∀ req ∈ buildFetchReqs rsh i ns, ∃ s, req = .fetch rsh s 67108864 := by
  intro ns
  induction ns with
  | nil =>
    intro i req h
    simp [buildFetchReqs] at h
  | cons n ns ih =>
    intro i req h
    simp only [buildFetchReqs, List.mem_cons] at h
    rcases h with rfl | h
    · exact ⟨i, rfl⟩
    · exact ih (i + n) req h

lemma fetchLoop_complete (serve : Nat → Except String (Nat × List (List Nat)))
    (R rsh : Nat) (full : List (List Nat)) (nOf : Nat → Nat)
    (colsOf : Nat → List (List Nat)) (hR : full.length = R)
    (hserve : ∀ i, i < R → serve i = .ok (nOf i, colsOf i) ∧ 1 ≤ nOf i ∧
      i + nOf i ≤ R ∧ transposeMat (colsOf i) = (full.drop i).take (nOf i)) :
    ∀ fuel i, i ≤ R → R - i < fuel →
      ∃ ns : List Nat, (∀ n ∈ ns, 1 ≤ n) ∧ i + ns.sum = R ∧
        fetchLoop serve R rsh i fuel =
          .finished (buildFetchReqs rsh i ns ++ [.closeResultSet rsh])
            (full.drop i) := by
  intro fuel
  induction fuel with
  | zero =>
    intro i hi hlt
    omega
  | succ fuel ih =>
    intro i hi hlt
    by_cases hiR : i < R
    · obtain ⟨hsv, hn1, hnR, htr⟩ := hserve i hiR
      obtain ⟨ns, hns1, hsum, heq⟩ := ih (i + nOf i) hnR (by omega)
      refine ⟨nOf i :: ns, ?_, ?_, ?_⟩
      · intro n hn
        rcases List.mem_cons.mp hn with rfl | hn
        · exact hn1
        · exact hns1 n hn
      · simp only [List.sum_cons]
        omega
      · have hdrop : full.drop (i + nOf i) = (full.drop i).drop (nOf i) := by
          rw [List.drop_drop, Nat.add_comm]
        have hrows : transposeMat (colsOf i) ++ full.drop (i + nOf i) = full.drop i := by
          rw [htr, hdrop, List.take_append_drop]
        simp only [fetchLoop, if_pos hiR, hsv, heq, buildFetchReqs, List.cons_append]
        rw [hrows]
    · have hiEq : i = R := by omega
      refine ⟨[], by intro n hn; simp at hn, by simpa using hiEq.symm ▸ rfl, ?_⟩
      simp only [fetchLoop, if_neg hiR, buildFetchReqs, List.nil_append]
      subst hiEq
      rw [← hR, List.drop_length]

/-- C7: when a query's result set carries a handle and advertises `R > 0`
rows, and each `fetch` at offset `i` returns a chunk of `nOf i ≥ 1` rows —
the next `nOf i` rows of the full result — FetchChan's goroutine sends only
`fetch` requests with the 64 MiB budget whose start positions advance by
exactly the rows returned so far, followed by exactly one `closeResultSet`
for that handle, and the concatenation of the transposed chunks in call
order is exactly the full row sequence. -/
theorem c7_fetch_chan_pagination
    (serve : Nat → Except String (Nat × List (List Nat))) (R rsh : Nat)
    (inlineCols full : List (List Nat)) (nOf : Nat → Nat)
    (colsOf : Nat → List (List Nat)) (hR : full.length = R) (hpos : 0 < R)
    (hserve : ∀ i, i < R → serve i = .ok (nOf i, colsOf i) ∧ 1 ≤ nOf i ∧
      i + nOf i ≤ R ∧ transposeMat (colsOf i) = (full.drop i).take (nOf i)) :
    ∃ ns : List Nat, (∀ n ∈ ns, 1 ≤ n) ∧ ns.sum = R ∧
      (∀ req ∈ buildFetchReqs rsh 0 ns, ∃ s, req = .fetch rsh s 67108864) ∧
      fetchChanGo R (some rsh) inlineCols serve =
        .finished (buildFetchReqs rsh 0 ns ++ [.closeResultSet rsh]) full := by
  obtain ⟨ns, hns1, hsum, heq⟩ :=
    fetchLoop_complete serve R rsh full nOf colsOf hR hserve (R + 1) 0
      (Nat.zero_le R) (by omega)
  refine ⟨ns, hns1, by omega, buildFetchReqs_shape rsh ns 0, ?_⟩
  have hRne : ¬ R = 0 := by omega
  simp only [fetchChanGo, if_neg hRne]
  simpa using heq

/-- Server oracle for the C7 witness: the chunk at offset `i` reports one
row whose single column holds `i + 1`. -/
def c7ServeW : Nat → Except String (Nat × List (List Nat)) :=
  fun i => .ok (1, [[i + 1]])

/-- Witness for C7 at a two-row result set served one row per fetch: the
requests are 64 MiB fetches at offsets 0 and 1 followed by one
closeResultSet, and the rows come out in full order. -/
theorem c7_fetch_chan_pagination_witness :
    ∃ ns : List Nat, (∀ n ∈ ns, 1 ≤ n) ∧ ns.sum = 2 ∧
      (∀ req ∈ buildFetchReqs 5 0 ns, ∃ s, req = .fetch 5 s 67108864) ∧
      fetchChanGo 2 (some 5) [] c7ServeW =
        .finished (buildFetchReqs 5 0 ns ++ [.closeResultSet 5]) [[1], [2]] := by
  refine c7_fetch_chan_pagination c7ServeW 2 5 [] [[1], [2]] (fun _ => 1)
    (fun i => [[i + 1]]) (by decide) (by decide) ?_
  intro i hi
  have hcase : i = 0 ∨ i = 1 := by omega
  rcases hcase with rfl | rfl
  · exact ⟨rfl, by decide, by decide, by decide⟩
  · exact ⟨rfl, by decide, by decide, by decide⟩

/-- C8: a result set advertising zero rows makes FetchChan's goroutine close
the row channel immediately — no row is sent and no request (in particular
no fetch) goes over the socket — whatever the handle, inline data or server
behaviour. -/
theorem c8_zero_rows_no_fetch (rshOpt : Option Nat) (inlineCols : List (List Nat))
    (serve : Nat → Except String (Nat × List (List Nat))) :
    fetchChanGo 0 rshOpt inlineCols serve = .finished [] [] := by
  simp [fetchChanGo]

/-- C10: whenever the pagination loop's `fetch` at the current offset
returns an error, the goroutine panics with exactly that error after that
one request — it neither delivers the error to the caller nor closes the row
channel normally; in particular a first-fetch error makes the whole
FetchChan goroutine panic. -/
theorem c10_fetch_error_panics
    (serve : Nat → Except String (Nat × List (List Nat)))
    (R rsh fuel : Nat) (inlineCols : List (List Nat)) (e : String) :
    (∀ i, i < R → serve i = .error e →
      fetchLoop serve R rsh i (fuel + 1) = .panicked [.fetch rsh i 67108864] [] e) ∧
    (0 < R → serve 0 = .error e →
      fetchChanGo R (some rsh) inlineCols serve =
        .panicked [.fetch rsh 0 67108864] [] e) := by
  constructor
  · intro i hiR hsv
    simp [fetchLoop, hiR, hsv]
  · intro hpos hsv
    have hRne : ¬ R = 0 := by omega
    simp [fetchChanGo, hRne, fetchLoop, hpos, hsv]

/-- Server oracle for the C10 witness: every fetch fails. -/
def c10ServeW : Nat → Except String (Nat × List (List Nat)) :=
  fun _ => .error "socket closed"

/-- Witness for C10 at a three-row result set whose first fetch errors: the
goroutine panics with that error after the single fetch request. -/
theorem c10_fetch_error_panics_witness :
    fetchChanGo 3 (some 4) [] c10ServeW =
      .panicked [.fetch 4 0 67108864] [] "socket closed" :=
  (c10_fetch_error_panics c10ServeW 3 4 0 [] "socket closed").2 (by decide) rfl

end Exasol
